import Mathlib

/-!
Shallow embedding of the plugin credential-intake routes of
`src/panel/plugin.py` (routes `/api/plugin/update-token` and
`/api/plugin/check-tokens`), together with theorems settling the frozen
claims about them.

Conventions of the embedding:
* JSON values are `Json` below; Python truthiness is `truthy`.
* `dict.get` on a parsed JSON object is `jget` (first binding wins; a
  Python dict has unique keys, so an association list with at most one
  binding per key is the faithful image).
* An HTTP handler outcome is `Outcome`: a 2xx payload, a raised
  `HTTPException status detail`, or `crash` for an exception that escapes
  the handler (e.g. `AttributeError` from calling `.get` on a non-dict).
* The storage adapter and the credential managers are not part of the
  sources under verification; they are modelled from the spec (sections 3
  and 6): `list_credentials` yields filenames, `get_credential` yields a
  credential record or absent (Python-falsy results are `absent`, matching
  the `if existing_data` / `if cred` truthiness tests at the call sites),
  `get_credential_state` yields a runtime state record or absent, and
  either call may raise.  The credential writers overwrite by filename.
* Clock readings are passed explicitly: `ts` is `int(time.time())` for the
  intake handler; `now` is the epoch-second reading of
  `datetime.now(timezone.utc)` for the query handler, and the external
  `datetime.fromisoformat` parser is a parameter `fromiso` returning the
  parsed instant in epoch seconds, `none` when parsing raises.
-/

namespace Plugin

/-- A JSON value, as produced by `await request.json()`. -/
inductive Json where
  | null
  | bool (b : Bool)
  | num (n : Int)
  | str (s : String)
  | arr (xs : List Json)
  | obj (kvs : List (String × Json))
deriving Repr

/-- Python truthiness `bool(v)` of a JSON value. -/
def truthy : Json → Bool
  | Json.null => false
  | Json.bool b => b
  | Json.num n => n != 0
  | Json.str s => s != ""
  | Json.arr xs => !xs.isEmpty
  | Json.obj kvs => !kvs.isEmpty

/-- Python `d.get(k, dflt)` on a parsed JSON object. -/
def jget (kvs : List (String × Json)) (k : String) (dflt : Json) : Json :=
  match kvs.find? (fun p => p.1 == k) with
  | some p => p.2
  | none => dflt

mutual
/-- Python `==` between JSON values (structural; the `bool`/`int` numeric
coercion of Python is immaterial to every claim, whose compared values are
strings). -/
def beqJson : Json → Json → Bool
  | Json.null, Json.null => true
  | Json.bool a, Json.bool b => a == b
  | Json.num a, Json.num b => a == b
  | Json.str a, Json.str b => a == b
  | Json.arr xs, Json.arr ys => beqJsonList xs ys
  | Json.obj xs, Json.obj ys => beqJsonObj xs ys
  | _, _ => false

def beqJsonList : List Json → List Json → Bool
  | [], [] => true
  | x :: xs, y :: ys => beqJson x y && beqJsonList xs ys
  | _, _ => false

def beqJsonObj : List (String × Json) → List (String × Json) → Bool
  | [], [] => true
  | (k, v) :: xs, (l, w) :: ys => k == l && beqJson v w && beqJsonObj xs ys
  | _, _ => false
end

/-- Single quote character, for rendering Python `repr` of strings. -/
def sq : String := "\x27"

mutual
/-- Python `repr` of a JSON value (string escaping inside `repr` is not
reproduced; no claim depends on the rendered text of containers). -/
def pyRepr : Json → String
  | Json.null => "None"
  | Json.bool true => "True"
  | Json.bool false => "False"
  | Json.num n => toString n
  | Json.str s => sq ++ s ++ sq
  | Json.arr xs => "[" ++ pyReprList xs ++ "]"
  | Json.obj xs => "\x7b" ++ pyReprObj xs ++ "\x7d"

def pyReprList : List Json → String
  | [] => ""
  | [x] => pyRepr x
  | x :: xs => pyRepr x ++ ", " ++ pyReprList xs

def pyReprObj : List (String × Json) → String
  | [] => ""
  | [(k, v)] => sq ++ k ++ sq ++ ": " ++ pyRepr v
  | (k, v) :: xs => sq ++ k ++ sq ++ ": " ++ pyRepr v ++ ", " ++ pyReprObj xs
end

/-- Python `str(v)` as used by an f-string interpolation. -/
def pyStr : Json → String
  | Json.str s => s
  | v => pyRepr v

/-- Python `s.endswith(suf)`: suffix test on the character sequence. -/
def pyEndsWith (s suf : String) : Bool :=
  List.isSuffixOf suf.data s.data

/-- Python `s.startswith(pre)`: prefix test on the character sequence. -/
def pyStartsWith (s pre : String) : Bool :=
  List.isPrefixOf pre.data s.data

/-- Replace every occurrence of the character `Z` by `+00:00`. -/
def replaceZChars : List Char → List Char
  | [] => []
  | c :: rest =>
    if c = 'Z' then ['+', '0', '0', ':', '0', '0'] ++ replaceZChars rest
    else c :: replaceZChars rest

/-- Python `s.replace("Z", "+00:00")` as called at `plugin.py` line 220
(a single-character pattern, every occurrence replaced). -/
def pyReplaceZ (s : String) : String :=
  ⟨replaceZChars s.data⟩

/-- The HTTP-level outcome of one handler invocation: a success payload,
a raised `HTTPException(status_code, detail)`, or an exception escaping
the handler unhandled. -/
inductive Outcome (α : Type) where
  | ok (a : α)
  | err (status : Nat) (detail : String)
  | crash
deriving Repr

/-- The status code of a raised `HTTPException`, if the outcome is one. -/
def errStatus {α : Type} : Outcome α → Option Nat
  | Outcome.err s _ => some s
  | _ => none

/-- Runtime state of one stored credential, modelled from the spec, section
3: `user_email`, `disabled`, `error_codes`, independent lifecycle, absence
valid. -/
structure RuntimeState where
  user_email : String
  disabled : Bool
  error_codes : List String
deriving DecidableEq, Repr

/-- Modelled from the spec, section 6: the external storage adapter for one
mode partition.  `Except.error ()` models a raised read error; `Except.ok
none` models an absent (Python-falsy) result. -/
structure Store where
  files : List String
  getCred : String → Except Unit (Option (List (String × Json)))
  getState : String → Except Unit (Option RuntimeState)

/-- Modelled from the spec, section 6: the credential writers
`add_credential` / `add_antigravity_credential` overwrite by filename. -/
def applyWrite (st : Store) (f : String) (rec : List (String × Json)) : Store :=
  { files := if st.files.contains f then st.files else st.files ++ [f]
  , getCred := fun g => if g = f then Except.ok (some rec) else st.getCred g
  , getState := st.getState }

/-- `plugin.py` lines 94-97 and 190-193: the presented connection secret,
`body.get("token", "")` overridden by a `Bearer` authorization header. -/
def presentedToken (auth : String) (body : List (String × Json)) : Json :=
  if pyStartsWith auth "Bearer " then Json.str (auth.drop 7)
  else jget body "token" (Json.str "")

/-- `plugin.py` lines 122-124 and 197-199: mode resolution with default
`geminicli`; the result is the string used both as the store partition key
and for choosing the credential writer. -/
def resolveMode (body : List (String × Json)) : String :=
  let m := jget body "mode" (Json.str "geminicli")
  if beqJson m (Json.str "geminicli") || beqJson m (Json.str "antigravity") then
    (if beqJson m (Json.str "antigravity") then "antigravity" else "geminicli")
  else "geminicli"

/-- `plugin.py` lines 106-107: the recognized flattened credential keys. -/
def credKeys : List String :=
  ["client_id", "client_secret", "refresh_token", "token",
   "access_token", "scopes", "token_uri", "project_id", "expiry"]

/-- `plugin.py` line 108: the flattened-form extraction
`{k: v for k, v in body.items() if k in cred_keys and v}`. -/
def flattenExtract (body : List (String × Json)) : List (String × Json) :=
  body.filter (fun p => credKeys.contains p.1 && truthy p.2)

/-- `plugin.py` lines 103-108: the candidate credential, nested
`body.get("credential")` when truthy, else the flattened extraction. -/
def extractCred (body : List (String × Json)) : Json :=
  if truthy (jget body "credential" Json.null) then jget body "credential" Json.null
  else Json.obj (flattenExtract body)

/-- `plugin.py` lines 129-133: the derived filename
`f"{prefix}{project_id}-{ts}.json"`. -/
def deriveFilename (body credential : List (String × Json)) (ts : Nat) : String :=
  let pid := jget credential "project_id" (Json.str "plugin")
  let nameVal := jget body "name" (Json.str "")
  let pfx := if truthy nameVal then pyStr nameVal ++ "-" else ""
  pfx ++ pyStr pid ++ "-" ++ toString ts ++ ".json"

/-- `plugin.py` lines 127-135: resolve the filename before deduplication;
`none` models the `AttributeError` raised by `.endswith` on a truthy
non-string `filename` field. -/
def resolveFilename (body credential : List (String × Json)) (ts : Nat) :
    Option String :=
  match (if truthy (jget body "filename" (Json.str "")) then jget body "filename" (Json.str "")
         else Json.str (deriveFilename body credential ts)) with
  | Json.str fn0 => some (if pyEndsWith fn0 ".json" then fn0 else fn0 ++ ".json")
  | _ => none

/-- `plugin.py` lines 144-154: the deduplication scan; a raised read and an
absent (falsy) record alike continue the scan, the first record whose
`project_id` equals the candidate one wins and stops the scan. -/
def findProjectMatch (getCred : String → Except Unit (Option (List (String × Json))))
    (pid : Json) : List String → Option String
  | [] => none
  | ef :: rest =>
    match getCred ef with
    | Except.error _ => findProjectMatch getCred pid rest
    | Except.ok none => findProjectMatch getCred pid rest
    | Except.ok (some rec) =>
      if beqJson (jget rec "project_id" Json.null) pid then some ef
      else findProjectMatch getCred pid rest

/-- `plugin.py` lines 137-154: dedup target selection; the scan runs only
for a truthy candidate `project_id`. -/
def dedupTarget (st : Store) (credential : List (String × Json)) (fn : String) :
    String × Bool :=
  if truthy (jget credential "project_id" (Json.str "")) then
    match findProjectMatch st.getCred (jget credential "project_id" (Json.str "")) st.files with
    | some ef => (ef, true)
    | none => (fn, false)
  else (fn, false)

/-- The success payload of `/update-token` (`plugin.py` lines 165-171):
`filename`, `id` (returned equal to `filename`), `action`, the resolved
mode selecting the credential writer, and the written credential record. -/
structure UpdateOk where
  filename : String
  id : String
  action : String
  mode : String
  written : List (String × Json)
deriving Repr

/-- `plugin.py` lines 113-171: the intake handler after authentication and
candidate extraction, given the candidate is a JSON object. -/
def updateWithCred (body credential : List (String × Json)) (ts : Nat)
    (store : String → Store) : Outcome UpdateOk :=
  if !truthy (jget credential "refresh_token" Json.null)
      || !truthy (jget credential "client_id" Json.null) then
    Outcome.err 400 "凭证需要包含 client_id 和 refresh_token"
  else
    match resolveFilename body credential ts with
    | none => Outcome.crash
    | some fn =>
      Outcome.ok
        { filename := (dedupTarget (store (resolveMode body)) credential fn).1
        , id := (dedupTarget (store (resolveMode body)) credential fn).1
        , action := if (dedupTarget (store (resolveMode body)) credential fn).2
                    then "updated" else "created"
        , mode := resolveMode body
        , written := credential }

/-- `plugin.py` lines 52-171: the `/update-token` intake handler.
`rawBody = none` models a body that fails JSON parsing; note the parse
error (line 87) precedes the unconfigured-secret check (lines 90-92), and
`body.get` on a non-object parsed body (line 94) raises unhandled. -/
def update_token (cfg auth : String) (rawBody : Option Json) (ts : Nat)
    (store : String → Store) : Outcome UpdateOk :=
  match rawBody with
  | none => Outcome.err 400 "无效的 JSON"
  | some bodyJson =>
    if cfg = "" then Outcome.err 503 "插件连接未配置 connection_token"
    else
      match bodyJson with
      | Json.obj body =>
        let reqToken := presentedToken auth body
        if !truthy reqToken || !beqJson reqToken (Json.str cfg) then
          Outcome.err 401 "无效的连接 Token"
        else
          let credVal := extractCred body
          if !truthy credVal then Outcome.err 400 "缺少凭证数据"
          else
            match credVal with
            | Json.obj credential => updateWithCred body credential ts store
            | _ => Outcome.crash
      | _ => Outcome.crash

/-- The store writes performed by one intake invocation: the single
overwrite-by-filename on success, none on any failure (`plugin.py` lines
156-160 run after every raise). -/
def updateWrites : Outcome UpdateOk → List (String × String × List (String × Json))
  | Outcome.ok r => [(r.mode, r.filename, r.written)]
  | _ => []

/-- One per-filename summary of `/check-tokens` (`plugin.py` lines
229-235). -/
structure TokenSummary where
  filename : String
  email : String
  is_active : Bool
  needs_refresh : Bool
  error_codes : List String
deriving DecidableEq, Repr

/-- The success payload of `/check-tokens` (`plugin.py` lines 239-245). -/
structure CheckOk where
  tokens : List TokenSummary
  needs_refresh_emails : List String
deriving DecidableEq, Repr

/-- `(state or {}).get("user_email", "") if state else ""`,
`plugin.py` line 209. -/
def stateEmail : Option RuntimeState → String
  | some st => st.user_email
  | none => ""

/-- `(state or {}).get("disabled", False) if state else False`,
`plugin.py` line 210. -/
def stateDisabled : Option RuntimeState → Bool
  | some st => st.disabled
  | none => false

/-- `(state or {}).get("error_codes", []) if state else []`,
`plugin.py` line 211. -/
def stateErrors : Option RuntimeState → List String
  | some st => st.error_codes
  | none => []

/-- `plugin.py` lines 213-227: the refresh-need decision for one read
credential record.  `fromiso` is the external `datetime.fromisoformat`
(epoch seconds, `none` when it raises); the non-string branch models the
caught `AttributeError` of `.replace` on a non-string expiry. -/
def needsRefresh (fromiso : String → Option Int) (now : Int) :
    Option (List (String × Json)) → Bool
  | none => false
  | some cred =>
    let expiry := jget cred "expiry" (Json.str "")
    if truthy expiry then
      match expiry with
      | Json.str s =>
        match fromiso (pyReplaceZ s) with
        | none => true
        | some t => decide (t - now < 300)
      | _ => true
    else true

/-- `plugin.py` lines 205-237: one loop iteration of `/check-tokens`; a
raised read of state or credential skips the filename (`none`). -/
def summarize (fromiso : String → Option Int) (now : Int) (st : Store)
    (f : String) : Option TokenSummary :=
  match st.getState f with
  | Except.error _ => none
  | Except.ok stOpt =>
    match st.getCred f with
    | Except.error _ => none
    | Except.ok credOpt =>
      some
        { filename := f
        , email := stateEmail stOpt
        , is_active := !stateDisabled stOpt
        , needs_refresh := needsRefresh fromiso now credOpt
        , error_codes := stateErrors stOpt }

/-- `plugin.py` lines 239-245: the success payload, with the aggregated
email list computed from the summaries. -/
def checkAggregate (toks : List TokenSummary) : CheckOk :=
  { tokens := toks
  , needs_refresh_emails :=
      (toks.filter (fun t => t.needs_refresh && t.is_active && !(t.email == ""))).map
        TokenSummary.email }

/-- `plugin.py` lines 174-245: the `/check-tokens` query handler.  A body
that fails JSON parsing is replaced by `{}` (lines 180-183); `body.get` on
a non-object parsed body (line 190) raises unhandled. -/
def check_tokens (cfg auth : String) (rawBody : Option Json)
    (fromiso : String → Option Int) (now : Int) (store : String → Store) :
    Outcome CheckOk :=
  let bodyJson := match rawBody with | some v => v | none => Json.obj []
  if cfg = "" then Outcome.err 503 "插件连接未配置"
  else
    match bodyJson with
    | Json.obj body =>
      let reqToken := presentedToken auth body
      if !truthy reqToken || !beqJson reqToken (Json.str cfg) then
        Outcome.err 401 "无效的连接 Token"
      else
        let st := store (resolveMode body)
        Outcome.ok (checkAggregate (st.files.filterMap (summarize fromiso now st)))
    | _ => Outcome.crash

/-- Stated from the claim wording, for comparison with the code path: a
present credential record needs refresh iff its `expiry` field is absent,
is not a successfully parsed timestamp string, or the parsed instant is
less than 300 seconds after `now`. -/
def specNeedsRefresh (fromiso : String → Option Int) (now : Int)
    (cred : List (String × Json)) : Bool :=
  match cred.find? (fun p => p.1 == "expiry") with
  | none => true
  | some p =>
    match p.2 with
    | Json.str s =>
      match fromiso (pyReplaceZ s) with
      | none => true
      | some t => decide (t - now < 300)
    | _ => true

/-- Stated from the claim wording: the outcome is a success or a raised
structured error with status 503, 401 or 400. -/
def structuredOutcome : Outcome UpdateOk → Bool
  | Outcome.ok _ => true
  | Outcome.err s _ => s == 503 || s == 401 || s == 400
  | Outcome.crash => false

/-- A JSON value that is a string or Python-falsy: the body filename values
whose handling does not raise at `plugin.py` line 134. -/
def strOrFalsy : Json → Bool
  | Json.str _ => true
  | v => !truthy v

/-- The intake request bodies whose handling stays inside the handler's own
error branches: malformed, or an object whose `credential` field (when
truthy) is an object and whose `filename` field is a string or falsy. -/
def bodyShapeOk : Option Json → Bool
  | none => true
  | some (Json.obj b) =>
    (match jget b "credential" Json.null with
     | Json.obj _ => true
     | v => !truthy v)
    && strOrFalsy (jget b "filename" (Json.str ""))
  | some _ => false

/-- The empty store, for concrete instances. -/
def emptyStore : Store :=
  { files := []
  , getCred := fun _ => Except.ok none
  , getState := fun _ => Except.ok none }

/-- The store family assigning the empty store to every mode. -/
def constStore : String → Store := fun _ => emptyStore

/-- An external timestamp parser that always fails, for concrete instances. -/
def noParse : String → Option Int := fun _ => none

/-! ## Basic lemmas -/

theorem truthy_str_iff (s : String) : truthy (Json.str s) = true ↔ s ≠ "" := by
  simp [truthy]

theorem beqJson_str_iff (a : Json) (s : String) :
    beqJson a (Json.str s) = true ↔ a = Json.str s := by
  cases a <;> simp [beqJson]

theorem pyEndsWith_append (s t : String) : pyEndsWith (s ++ t) t = true := by
  simp [pyEndsWith, String.data_append]

theorem truthy_obj_of_ne_nil (credential : List (String × Json))
    (h : credential ≠ []) : truthy (Json.obj credential) = true := by
  cases credential with
  | nil => exact absurd rfl h
  | cons p ps => simp [truthy]

/-- A candidate credential with a truthy `client_id` is a non-empty object. -/
theorem ne_nil_of_truthy_get (credential : List (String × Json)) (k : String)
    (h : truthy (jget credential k Json.null) = true) : credential ≠ [] := by
  intro hnil
  subst hnil
  simp [jget, truthy] at h

/-- After a passed authentication, the intake handler is the candidate
validation and storage stage. -/
theorem update_token_auth_pass (cfg auth : String) (body : List (String × Json))
    (ts : Nat) (store : String → Store)
    (hcfg : cfg ≠ "") (hauth : presentedToken auth body = Json.str cfg) :
    update_token cfg auth (some (Json.obj body)) ts store
      = (if (!truthy (extractCred body)) = true then Outcome.err 400 "缺少凭证数据"
         else match extractCred body with
              | Json.obj credential => updateWithCred body credential ts store
              | _ => Outcome.crash) := by
  have h1 : truthy (presentedToken auth body) = true := by
    rw [hauth]; exact (truthy_str_iff cfg).mpr hcfg
  have h2 : beqJson (presentedToken auth body) (Json.str cfg) = true :=
    (beqJson_str_iff _ _).mpr hauth
  simp only [update_token]
  rw [if_neg hcfg]
  simp [h1, h2]

/-- After a passed authentication and a candidate credential extracted as a
non-empty object, the intake handler is `updateWithCred`. -/
theorem update_token_auth_ok (cfg auth : String) (body credential : List (String × Json))
    (ts : Nat) (store : String → Store)
    (hcfg : cfg ≠ "") (hauth : presentedToken auth body = Json.str cfg)
    (hcred : extractCred body = Json.obj credential) (hne : credential ≠ []) :
    update_token cfg auth (some (Json.obj body)) ts store
      = updateWithCred body credential ts store := by
  rw [update_token_auth_pass cfg auth body ts store hcfg hauth, hcred]
  simp [truthy_obj_of_ne_nil credential hne]

/-- A filename body field that is a string or falsy resolves to a filename
(no raise at `plugin.py` line 134). -/
theorem resolveFilename_some (body credential : List (String × Json)) (ts : Nat)
    (h : strOrFalsy (jget body "filename" (Json.str "")) = true) :
    ∃ fn, resolveFilename body credential ts = some fn := by
  unfold resolveFilename
  by_cases ht : truthy (jget body "filename" (Json.str "")) = true
  · rw [if_pos ht]
    cases hv : jget body "filename" (Json.str "") with
    | str s => exact ⟨_, rfl⟩
    | null => rw [hv] at ht; simp [truthy] at ht
    | bool b => rw [hv] at h ht; simp [strOrFalsy, ht] at h
    | num n => rw [hv] at h ht; simp [strOrFalsy, ht] at h
    | arr xs => rw [hv] at h ht; simp [strOrFalsy, ht] at h
    | obj kvs => rw [hv] at h ht; simp [strOrFalsy, ht] at h
  · rw [if_neg ht]
    exact ⟨_, rfl⟩

/-- `updateWithCred` never raises the 401 authentication error. -/
theorem updateWithCred_ne_401 (body credential : List (String × Json)) (ts : Nat)
    (store : String → Store) (d : String) :
    updateWithCred body credential ts store ≠ Outcome.err 401 d := by
  unfold updateWithCred
  split
  · simp
  · cases hfn : resolveFilename body credential ts <;> simp

/-- With valid credentials presented, the intake handler does not return the
401 authentication error. -/
theorem update_token_no_401_of_auth (cfg auth : String) (body : List (String × Json))
    (ts : Nat) (store : String → Store)
    (hcfg : cfg ≠ "") (hauth : presentedToken auth body = Json.str cfg) :
    update_token cfg auth (some (Json.obj body)) ts store
      ≠ Outcome.err 401 "无效的连接 Token" := by
  rw [update_token_auth_pass cfg auth body ts store hcfg hauth]
  split
  · simp
  · cases hE : extractCred body with
    | obj c => exact updateWithCred_ne_401 body c ts store _
    | null => simp
    | bool b => simp
    | num n => simp
    | str s => simp
    | arr xs => simp

/-- With invalid credentials presented, the intake handler returns 401. -/
theorem update_token_401_of_bad (cfg auth : String) (body : List (String × Json))
    (ts : Nat) (store : String → Store)
    (hbad : ¬(truthy (presentedToken auth body) = true
              ∧ presentedToken auth body = Json.str cfg))
    (hcfg : cfg ≠ "") :
    update_token cfg auth (some (Json.obj body)) ts store
      = Outcome.err 401 "无效的连接 Token" := by
  have hb : (!truthy (presentedToken auth body)
      || !beqJson (presentedToken auth body) (Json.str cfg)) = true := by
    by_cases h1 : truthy (presentedToken auth body) = true
    · have h2 : presentedToken auth body ≠ Json.str cfg := fun he => hbad ⟨h1, he⟩
      have : beqJson (presentedToken auth body) (Json.str cfg) = false := by
        rw [Bool.eq_false_iff]
        intro hbeq
        exact h2 ((beqJson_str_iff _ _).mp hbeq)
      simp [this]
    · simp only [Bool.not_eq_true] at h1
      simp [h1]
  simp only [update_token]
  rw [if_neg hcfg]
  simp only [hb, if_true, ite_true]

/-- With invalid credentials presented, the query handler returns 401. -/
theorem check_tokens_401_of_bad (cfg auth : String) (body : List (String × Json))
    (fromiso : String → Option Int) (now : Int) (store : String → Store)
    (hbad : ¬(truthy (presentedToken auth body) = true
              ∧ presentedToken auth body = Json.str cfg))
    (hcfg : cfg ≠ "") :
    check_tokens cfg auth (some (Json.obj body)) fromiso now store
      = Outcome.err 401 "无效的连接 Token" := by
  have hb : (!truthy (presentedToken auth body)
      || !beqJson (presentedToken auth body) (Json.str cfg)) = true := by
    by_cases h1 : truthy (presentedToken auth body) = true
    · have h2 : presentedToken auth body ≠ Json.str cfg := fun he => hbad ⟨h1, he⟩
      have : beqJson (presentedToken auth body) (Json.str cfg) = false := by
        rw [Bool.eq_false_iff]
        intro hbeq
        exact h2 ((beqJson_str_iff _ _).mp hbeq)
      simp [this]
    · simp only [Bool.not_eq_true] at h1
      simp [h1]
  simp only [check_tokens]
  rw [if_neg hcfg]
  simp only [hb, if_true, ite_true]

/-- With valid credentials presented, the query handler succeeds. -/
theorem check_tokens_ok_of_auth (cfg auth : String) (body : List (String × Json))
    (fromiso : String → Option Int) (now : Int) (store : String → Store)
    (hcfg : cfg ≠ "") (hauth : presentedToken auth body = Json.str cfg) :
    check_tokens cfg auth (some (Json.obj body)) fromiso now store
      = Outcome.ok (checkAggregate ((store (resolveMode body)).files.filterMap
          (summarize fromiso now (store (resolveMode body))))) := by
  have h1 : truthy (presentedToken auth body) = true := by
    rw [hauth]; exact (truthy_str_iff cfg).mpr hcfg
  have h2 : beqJson (presentedToken auth body) (Json.str cfg) = true :=
    (beqJson_str_iff _ _).mpr hauth
  simp only [check_tokens]
  rw [if_neg hcfg]
  simp [h1, h2]

/-! ## Claim C3 -/

/-- C3: while a shared secret is configured, an intake or query request with
a JSON-object body (or, for the query, a malformed body treated as the empty
object) fails with 401 exactly when the presented secret — the Bearer header
value when such a header is present, else the body token field — is not a
non-empty exact match of the configured secret. -/
theorem c3_auth_gate (cfg auth : String) (body : List (String × Json)) (ts : Nat)
    (fromiso : String → Option Int) (now : Int) (store : String → Store)
    (hcfg : cfg ≠ "") :
    (update_token cfg auth (some (Json.obj body)) ts store
        = Outcome.err 401 "无效的连接 Token"
      ↔ ¬(truthy (presentedToken auth body) = true
            ∧ presentedToken auth body = Json.str cfg))
    ∧ (check_tokens cfg auth (some (Json.obj body)) fromiso now store
        = Outcome.err 401 "无效的连接 Token"
      ↔ ¬(truthy (presentedToken auth body) = true
            ∧ presentedToken auth body = Json.str cfg))
    ∧ (check_tokens cfg auth none fromiso now store
        = Outcome.err 401 "无效的连接 Token"
      ↔ ¬(truthy (presentedToken auth ([] : List (String × Json))) = true
            ∧ presentedToken auth ([] : List (String × Json)) = Json.str cfg)) := by
  refine ⟨⟨fun he => ?_, fun hbad => update_token_401_of_bad cfg auth body ts store hbad hcfg⟩,
    ⟨fun he => ?_, fun hbad => check_tokens_401_of_bad cfg auth body fromiso now store hbad hcfg⟩,
    ⟨fun he => ?_, fun hbad => ?_⟩⟩
  · intro hgood
    exact update_token_no_401_of_auth cfg auth body ts store hcfg hgood.2 he
  · intro hgood
    rw [check_tokens_ok_of_auth cfg auth body fromiso now store hcfg hgood.2] at he
    exact Outcome.noConfusion he
  · intro hgood
    have : check_tokens cfg auth none fromiso now store
        = check_tokens cfg auth (some (Json.obj [])) fromiso now store := rfl
    rw [this, check_tokens_ok_of_auth cfg auth [] fromiso now store hcfg hgood.2] at he
    exact Outcome.noConfusion he
  · have : check_tokens cfg auth none fromiso now store
        = check_tokens cfg auth (some (Json.obj [])) fromiso now store := rfl
    rw [this]
    exact check_tokens_401_of_bad cfg auth [] fromiso now store hbad hcfg

/-- C3 witness: with secret `s` configured, no header and body token `w`,
both handlers return 401, and the iff instances hold. -/
theorem c3_witness :
    (update_token "s" "" (some (Json.obj [("token", Json.str "w")])) 0 constStore
        = Outcome.err 401 "无效的连接 Token"
      ↔ ¬(truthy (presentedToken "" [("token", Json.str "w")]) = true
            ∧ presentedToken "" [("token", Json.str "w")] = Json.str "s"))
    ∧ (check_tokens "s" "" (some (Json.obj [("token", Json.str "w")])) noParse 0 constStore
        = Outcome.err 401 "无效的连接 Token"
      ↔ ¬(truthy (presentedToken "" [("token", Json.str "w")]) = true
            ∧ presentedToken "" [("token", Json.str "w")] = Json.str "s"))
    ∧ (check_tokens "s" "" none noParse 0 constStore
        = Outcome.err 401 "无效的连接 Token"
      ↔ ¬(truthy (presentedToken "" ([] : List (String × Json))) = true
            ∧ presentedToken "" ([] : List (String × Json)) = Json.str "s")) :=
  c3_auth_gate "s" "" [("token", Json.str "w")] 0 noParse 0 constStore (by decide)

/-! ## Claim C4 -/

/-- C4 counterexample: with no shared secret configured and a malformed JSON
body, the intake request fails with 400 (invalid JSON), not with 503 as the
claim states: body parsing precedes the configuration check. -/
theorem c4_counterexample :
    update_token "" "" none 0 constStore = Outcome.err 400 "无效的 JSON"
    ∧ errStatus (update_token "" "" none 0 constStore) ≠ some 503 :=
  ⟨rfl, by decide⟩

/-- C4 amended: while no shared secret is configured, an intake request
whose body parses as JSON (of any shape) fails with 503 regardless of the
body content; a request whose body is malformed JSON fails with 400
instead, because body parsing runs before the configuration check. -/
theorem c4_amended_auth_order (auth : String) (v : Json) (ts : Nat)
    (store : String → Store) :
    update_token "" auth (some v) ts store
        = Outcome.err 503 "插件连接未配置 connection_token"
    ∧ update_token "" auth none ts store = Outcome.err 400 "无效的 JSON" := by
  constructor
  · unfold update_token
    simp
  · rfl

/-! ## Claim C8 -/

/-- C8 counterexample: with a secret configured and a valid Bearer header, a
body that is valid JSON but not an object (a JSON array) makes the intake
handler raise an unhandled exception (`body.get` on a list), escaping its
error branches instead of producing a structured 503/401/400 failure. -/
theorem c8_counterexample :
    update_token "s" "Bearer s" (some (Json.arr [])) 0 constStore = Outcome.crash
    ∧ structuredOutcome
        (update_token "s" "Bearer s" (some (Json.arr [])) 0 constStore) = false :=
  ⟨rfl, rfl⟩

/-- The candidate credential extracted from a body whose `credential` field
is an object or falsy is an object. -/
theorem extractCred_obj (body : List (String × Json))
    (h : (match jget body "credential" Json.null with
          | Json.obj _ => true
          | v => !truthy v) = true) :
    ∃ c, extractCred body = Json.obj c := by
  unfold extractCred
  by_cases ht : truthy (jget body "credential" Json.null) = true
  · rw [if_pos ht]
    cases hv : jget body "credential" Json.null with
    | obj kvs => exact ⟨kvs, rfl⟩
    | null => rw [hv] at ht; simp [truthy] at ht
    | bool b => rw [hv] at h ht; simp [ht] at h
    | num n => rw [hv] at h ht; simp [ht] at h
    | str s => rw [hv] at h ht; simp [ht] at h
    | arr xs => rw [hv] at h ht; simp [ht] at h
  · rw [if_neg ht]
    exact ⟨flattenExtract body, rfl⟩

/-- `updateWithCred` stays structured whenever the body filename field is a
string or falsy. -/
theorem updateWithCred_structured (body credential : List (String × Json))
    (ts : Nat) (store : String → Store)
    (hfn : strOrFalsy (jget body "filename" (Json.str "")) = true) :
    structuredOutcome (updateWithCred body credential ts store) = true := by
  obtain ⟨fn, hres⟩ := resolveFilename_some body credential ts hfn
  unfold updateWithCred
  split
  · rfl
  · rw [hres]
    rfl

/-- C8 amended: an intake request whose body is malformed JSON, or parses to
a JSON object whose `credential` field (when truthy) is itself an object and
whose `filename` field is a string or falsy, always ends in a success or one
of the structured errors 503, 401, 400; a valid-JSON non-object body (such
as a JSON array), a truthy non-object `credential` field or a truthy
non-string `filename` field instead escapes as an unhandled exception. -/
theorem c8_amended_structured (cfg auth : String) (rawBody : Option Json)
    (ts : Nat) (store : String → Store)
    (h : bodyShapeOk rawBody = true) :
    structuredOutcome (update_token cfg auth rawBody ts store) = true := by
  cases rawBody with
  | none => rfl
  | some v =>
    cases v with
    | obj body =>
      have hcredShape : (match jget body "credential" Json.null with
          | Json.obj _ => true
          | v => !truthy v) = true := by
        have := h
        simp only [bodyShapeOk, Bool.and_eq_true] at this
        exact this.1
      have hfn : strOrFalsy (jget body "filename" (Json.str "")) = true := by
        have := h
        simp only [bodyShapeOk, Bool.and_eq_true] at this
        exact this.2
      simp only [update_token]
      by_cases hcfg : cfg = ""
      · rw [if_pos hcfg]; rfl
      · rw [if_neg hcfg]
        obtain ⟨c, hc⟩ := extractCred_obj body hcredShape
        rw [hc]
        split
        · rfl
        · split
          · rfl
          · exact updateWithCred_structured body c ts store hfn
    | null => simp [bodyShapeOk] at h
    | bool b => simp [bodyShapeOk] at h
    | num n => simp [bodyShapeOk] at h
    | str s => simp [bodyShapeOk] at h
    | arr xs => simp [bodyShapeOk] at h

/-- C8 witness: an empty-object body with a wrong secret ends in the
structured 401 error. -/
theorem c8_witness :
    bodyShapeOk (some (Json.obj [])) = true
    ∧ structuredOutcome (update_token "x" "" (some (Json.obj [])) 0 constStore) = true :=
  ⟨rfl, c8_amended_structured "x" "" (some (Json.obj [])) 0 constStore rfl⟩

/-! ## Query-side lemmas -/

/-- Inversion: a successful query response is the aggregate of the
per-filename summaries over the resolved mode's store. -/
theorem check_tokens_ok_inv (cfg auth : String) (body : List (String × Json))
    (fromiso : String → Option Int) (now : Int) (store : String → Store)
    (res : CheckOk)
    (hok : check_tokens cfg auth (some (Json.obj body)) fromiso now store
      = Outcome.ok res) :
    res = checkAggregate ((store (resolveMode body)).files.filterMap
      (summarize fromiso now (store (resolveMode body)))) := by
  by_cases hcfg : cfg = ""
  · rw [hcfg] at hok
    simp [check_tokens] at hok
  · simp only [check_tokens] at hok
    rw [if_neg hcfg] at hok
    split at hok
    · exact Outcome.noConfusion hok
    · injection hok with h
      exact h.symm

/-- The code's refresh decision for a present record agrees with the
claim-side `specNeedsRefresh`, for any external parser that fails on the
empty string (as `datetime.fromisoformat` does). -/
theorem needsRefresh_eq_spec (fromiso : String → Option Int) (now : Int)
    (c : List (String × Json)) (hfe : fromiso "" = none) :
    needsRefresh fromiso now (some c) = specNeedsRefresh fromiso now c := by
  simp only [needsRefresh, specNeedsRefresh, jget]
  cases hfind : c.find? (fun p => p.1 == "expiry") with
  | none => simp [truthy]
  | some p =>
    obtain ⟨k, v⟩ := p
    cases v with
    | str s =>
      rcases eq_or_ne s "" with rfl | hs
      · have hz : pyReplaceZ "" = "" := rfl
        simp [truthy, hz, hfe]
      · simp [truthy, hs]
    | null => simp [truthy]
    | bool b => cases b <;> simp [truthy]
    | num n => simp [truthy]
    | arr xs => simp [truthy]
    | obj kvs => simp [truthy]

/-! ## Claim C1 -/

/-- C1: in an authenticated query, every returned summary whose credential
record is present has `needs_refresh` true exactly when the record's
`expiry` is absent, not a successfully parsed timestamp string, or parsed
to an instant less than 300 seconds after the evaluation time. -/
theorem c1_needs_refresh_matches_spec (cfg auth : String)
    (body : List (String × Json)) (fromiso : String → Option Int) (now : Int)
    (store : String → Store) (res : CheckOk) (t : TokenSummary)
    (c : List (String × Json))
    (hfe : fromiso "" = none)
    (hok : check_tokens cfg auth (some (Json.obj body)) fromiso now store
      = Outcome.ok res)
    (ht : t ∈ res.tokens)
    (hc : (store (resolveMode body)).getCred t.filename = Except.ok (some c)) :
    t.needs_refresh = specNeedsRefresh fromiso now c := by
  have hres := check_tokens_ok_inv cfg auth body fromiso now store res hok
  subst hres
  rw [checkAggregate, List.mem_filterMap] at ht
  obtain ⟨f, hf, hsum⟩ := ht
  cases hst : (store (resolveMode body)).getState f with
  | error e =>
    simp only [summarize, hst] at hsum
    exact Option.noConfusion hsum
  | ok stOpt =>
    cases hcr : (store (resolveMode body)).getCred f with
    | error e =>
      simp only [summarize, hst, hcr] at hsum
      exact Option.noConfusion hsum
    | ok credOpt =>
      simp only [summarize, hst, hcr] at hsum
      injection hsum with h
      have hfn : t.filename = f := by rw [← h]
      have hnr : t.needs_refresh = needsRefresh fromiso now credOpt := by rw [← h]
      rw [hfn, hcr] at hc
      injection hc with hc2
      rw [hnr, hc2]
      exact needsRefresh_eq_spec fromiso now c hfe

/-- An external parser for C1's witness: parses only the literal `E100`. -/
def wFromIso : String → Option Int := fun s => if s = "E100" then some 100 else none

/-- A one-credential store whose record has expiry `E100`. -/
def wStoreA : Store :=
  { files := ["a.json"]
  , getCred := fun f =>
      if f = "a.json" then Except.ok (some [("expiry", Json.str "E100")])
      else Except.ok none
  , getState := fun _ => Except.ok none }

/-- The store family used by C1's witness. -/
def wStoreFamA : String → Store := fun _ => wStoreA

/-- C1 witness: the summary of `a.json` (expiry 100 seconds away, evaluation
time 0) has `needs_refresh` true, as `specNeedsRefresh` dictates. -/
theorem c1_witness :
    (⟨"a.json", "", true, true, []⟩ : TokenSummary).needs_refresh
      = specNeedsRefresh wFromIso 0 [("expiry", Json.str "E100")] :=
  c1_needs_refresh_matches_spec "s" "Bearer s" [] wFromIso 0 wStoreFamA
    ⟨[⟨"a.json", "", true, true, []⟩], []⟩ ⟨"a.json", "", true, true, []⟩
    [("expiry", Json.str "E100")] rfl rfl (by decide) rfl

/-! ## Claim C5 -/

/-- C5: in an authenticated query, `needs_refresh_emails` is exactly the
emails of the summaries with `needs_refresh` true, `is_active` true and a
non-empty email, in the order of the tokens list, with no deduplication. -/
theorem c5_emails_filter (cfg auth : String) (body : List (String × Json))
    (fromiso : String → Option Int) (now : Int) (store : String → Store)
    (res : CheckOk)
    (hok : check_tokens cfg auth (some (Json.obj body)) fromiso now store
      = Outcome.ok res) :
    res.needs_refresh_emails
      = (res.tokens.filter (fun t =>
          decide (t.needs_refresh = true ∧ t.is_active = true ∧ t.email ≠ ""))).map
            TokenSummary.email := by
  have hres := check_tokens_ok_inv cfg auth body fromiso now store res hok
  subst hres
  have hfun : (fun (t : TokenSummary) => t.needs_refresh && t.is_active && !(t.email == ""))
      = (fun t => decide (t.needs_refresh = true ∧ t.is_active = true ∧ t.email ≠ "")) := by
    funext t
    cases hnr : t.needs_refresh <;> cases hia : t.is_active <;>
      by_cases he : t.email = "" <;> simp [hnr, hia, he]
  simp only [checkAggregate]
  rw [hfun]

/-- A two-credential store for C5's witness: both records lack `expiry`, one
state is disabled, emails are distinct. -/
def wStoreC : Store :=
  { files := ["c1.json", "c2.json"]
  , getCred := fun _ => Except.ok (some [("client_id", Json.str "x")])
  , getState := fun f =>
      if f = "c1.json" then Except.ok (some ⟨"u1@x", false, []⟩)
      else Except.ok (some ⟨"u2@x", true, []⟩) }

/-- The store family used by C5's witness. -/
def wStoreFamC : String → Store := fun _ => wStoreC

/-- C5 witness: with one active needing-refresh summary and one disabled
one, the aggregated email list is exactly the filtered projection. -/
theorem c5_witness :
    (⟨[⟨"c1.json", "u1@x", true, true, []⟩, ⟨"c2.json", "u2@x", false, true, []⟩],
        ["u1@x"]⟩ : CheckOk).needs_refresh_emails
      = ((⟨[⟨"c1.json", "u1@x", true, true, []⟩, ⟨"c2.json", "u2@x", false, true, []⟩],
          ["u1@x"]⟩ : CheckOk).tokens.filter (fun t =>
            decide (t.needs_refresh = true ∧ t.is_active = true ∧ t.email ≠ ""))).map
              TokenSummary.email :=
  c5_emails_filter "s" "Bearer s" [] noParse 0 wStoreFamC
    ⟨[⟨"c1.json", "u1@x", true, true, []⟩, ⟨"c2.json", "u2@x", false, true, []⟩],
      ["u1@x"]⟩ rfl

/-! ## Claim C9 -/

/-- C9: in an authenticated query, a filename whose credential record is
absent (not a raised read error) is still summarized, with `needs_refresh`
false and email, activity and error codes taken from the runtime state or
their defaults. -/
theorem c9_absent_credential (cfg auth : String) (body : List (String × Json))
    (fromiso : String → Option Int) (now : Int) (store : String → Store)
    (res : CheckOk) (f : String) (stOpt : Option RuntimeState)
    (hok : check_tokens cfg auth (some (Json.obj body)) fromiso now store
      = Outcome.ok res)
    (hf : f ∈ (store (resolveMode body)).files)
    (hst : (store (resolveMode body)).getState f = Except.ok stOpt)
    (hcr : (store (resolveMode body)).getCred f = Except.ok none) :
    (⟨f, stateEmail stOpt, !stateDisabled stOpt, false, stateErrors stOpt⟩ :
      TokenSummary) ∈ res.tokens := by
  have hres := check_tokens_ok_inv cfg auth body fromiso now store res hok
  subst hres
  rw [checkAggregate, List.mem_filterMap]
  exact ⟨f, hf, by simp [summarize, hst, hcr, needsRefresh]⟩

/-- A store for C9's witness: one filename with state but an absent
credential record. -/
def wStoreB : Store :=
  { files := ["b.json"]
  , getCred := fun _ => Except.ok none
  , getState := fun f =>
      if f = "b.json" then Except.ok (some ⟨"b@x", false, ["e1"]⟩)
      else Except.ok none }

/-- The store family used by C9's witness. -/
def wStoreFamB : String → Store := fun _ => wStoreB

/-- C9 witness: the filename with an absent record appears in the tokens
list with `needs_refresh` false and the state's email and error codes. -/
theorem c9_witness :
    (⟨"b.json", stateEmail (some ⟨"b@x", false, ["e1"]⟩),
        !stateDisabled (some ⟨"b@x", false, ["e1"]⟩), false,
        stateErrors (some ⟨"b@x", false, ["e1"]⟩)⟩ : TokenSummary)
      ∈ (⟨[⟨"b.json", "b@x", true, false, ["e1"]⟩], []⟩ : CheckOk).tokens :=
  c9_absent_credential "s" "Bearer s" [] noParse 0 wStoreFamB
    ⟨[⟨"b.json", "b@x", true, false, ["e1"]⟩], []⟩ "b.json"
    (some ⟨"b@x", false, ["e1"]⟩) rfl (by decide) rfl rfl

/-! ## Intake-side lemmas -/

/-- Scan equation: a raised read continues the scan. -/
theorem findProjectMatch_cons_error
    (getCred : String → Except Unit (Option (List (String × Json))))
    (pid : Json) (g : String) (rest : List String) (e : Unit)
    (h : getCred g = Except.error e) :
    findProjectMatch getCred pid (g :: rest) = findProjectMatch getCred pid rest := by
  simp [findProjectMatch, h]

/-- Scan equation: an absent record continues the scan. -/
theorem findProjectMatch_cons_none
    (getCred : String → Except Unit (Option (List (String × Json))))
    (pid : Json) (g : String) (rest : List String)
    (h : getCred g = Except.ok none) :
    findProjectMatch getCred pid (g :: rest) = findProjectMatch getCred pid rest := by
  simp [findProjectMatch, h]

/-- Scan equation: a present record is compared on `project_id`. -/
theorem findProjectMatch_cons_some
    (getCred : String → Except Unit (Option (List (String × Json))))
    (pid : Json) (g : String) (rest : List String) (rec : List (String × Json))
    (h : getCred g = Except.ok (some rec)) :
    findProjectMatch getCred pid (g :: rest)
      = (if beqJson (jget rec "project_id" Json.null) pid then some g
         else findProjectMatch getCred pid rest) := by
  simp [findProjectMatch, h]

/-- The scan returns the first stored filename whose present record carries
the candidate project id; earlier filenames with no present matching record
are passed over. -/
theorem findProjectMatch_first
    (getCred : String → Except Unit (Option (List (String × Json))))
    (p : String) (pre post : List String) (ef : String) (r : List (String × Json))
    (hpre : ∀ g ∈ pre, ∀ rec, getCred g = Except.ok (some rec) →
      jget rec "project_id" Json.null ≠ Json.str p)
    (hef : getCred ef = Except.ok (some r))
    (hr : jget r "project_id" Json.null = Json.str p) :
    findProjectMatch getCred (Json.str p) (pre ++ ef :: post) = some ef := by
  induction pre with
  | nil =>
    rw [List.nil_append, findProjectMatch_cons_some getCred (Json.str p) ef post r hef]
    rw [if_pos ((beqJson_str_iff _ _).mpr hr)]
  | cons g gs ih =>
    have hrest : ∀ g2 ∈ gs, ∀ rec, getCred g2 = Except.ok (some rec) →
        jget rec "project_id" Json.null ≠ Json.str p :=
      fun g2 hg2 => hpre g2 (List.mem_cons_of_mem g hg2)
    rw [List.cons_append]
    cases hcg : getCred g with
    | error e =>
      rw [findProjectMatch_cons_error getCred (Json.str p) g (gs ++ ef :: post) e hcg]
      exact ih hrest
    | ok o =>
      cases o with
      | none =>
        rw [findProjectMatch_cons_none getCred (Json.str p) g (gs ++ ef :: post) hcg]
        exact ih hrest
      | some rec =>
        have hne := hpre g (List.mem_cons_self g gs) rec hcg
        have hbeq : beqJson (jget rec "project_id" Json.null) (Json.str p) = false := by
          rw [Bool.eq_false_iff]
          intro hb
          exact hne ((beqJson_str_iff _ _).mp hb)
        rw [findProjectMatch_cons_some getCred (Json.str p) g (gs ++ ef :: post) rec hcg]
        rw [if_neg (by simp [hbeq])]
        exact ih hrest

/-- A successful scan returns a stored filename. -/
theorem findProjectMatch_mem
    (getCred : String → Except Unit (Option (List (String × Json))))
    (pid : Json) (files : List String) (ef : String)
    (h : findProjectMatch getCred pid files = some ef) : ef ∈ files := by
  induction files with
  | nil => simp [findProjectMatch] at h
  | cons g rest ih =>
    cases hcg : getCred g with
    | error e =>
      rw [findProjectMatch_cons_error getCred pid g rest e hcg] at h
      exact List.mem_cons_of_mem g (ih h)
    | ok o =>
      cases o with
      | none =>
        rw [findProjectMatch_cons_none getCred pid g rest hcg] at h
        exact List.mem_cons_of_mem g (ih h)
      | some rec =>
        rw [findProjectMatch_cons_some getCred pid g rest rec hcg] at h
        by_cases hb : beqJson (jget rec "project_id" Json.null) pid = true
        · rw [if_pos hb] at h
          injection h with h2
          exact h2 ▸ List.mem_cons_self g rest
        · rw [if_neg hb] at h
          exact List.mem_cons_of_mem g (ih h)

/-- A matching scan makes the dedup target the matched filename, flagged as
an update. -/
theorem dedupTarget_match (st : Store) (credential : List (String × Json))
    (fn : String) (p : String) (ef : String)
    (hpid : jget credential "project_id" (Json.str "") = Json.str p)
    (hp : p ≠ "")
    (hfind : findProjectMatch st.getCred (Json.str p) st.files = some ef) :
    dedupTarget st credential fn = (ef, true) := by
  unfold dedupTarget
  rw [hpid, if_pos ((truthy_str_iff p).mpr hp), hfind]

/-- A resolved filename always carries the `.json` suffix. -/
theorem resolveFilename_endsWith (body credential : List (String × Json))
    (ts : Nat) (fn : String)
    (h : resolveFilename body credential ts = some fn) :
    pyEndsWith fn ".json" = true := by
  unfold resolveFilename at h
  split at h
  · rename_i fn0 heq
    injection h with h2
    subst h2
    split
    · assumption
    · exact pyEndsWith_append fn0 ".json"
  · exact Option.noConfusion h

/-- On success the intake handler returns a filename that either resolved
through the suffix normalization or was selected from the store's listing. -/
theorem update_token_ok_filename (cfg auth : String) (rawBody : Option Json)
    (ts : Nat) (store : String → Store) (r : UpdateOk)
    (hok : update_token cfg auth rawBody ts store = Outcome.ok r) :
    r.id = r.filename
    ∧ (pyEndsWith r.filename ".json" = true
       ∨ ∃ m, r.filename ∈ (store m).files) := by
  cases rawBody with
  | none => exact absurd hok (by simp [update_token])
  | some v =>
    by_cases hcfg : cfg = ""
    · rw [hcfg] at hok
      simp [update_token] at hok
    · cases v with
      | obj body =>
        simp only [update_token] at hok
        rw [if_neg hcfg] at hok
        split at hok
        · exact Outcome.noConfusion hok
        · split at hok
          · exact Outcome.noConfusion hok
          · cases hE : extractCred body with
            | obj credential =>
              simp only [hE] at hok
              unfold updateWithCred at hok
              split at hok
              · exact Outcome.noConfusion hok
              · cases hRF : resolveFilename body credential ts with
                | none =>
                  simp only [hRF] at hok
                  exact Outcome.noConfusion hok
                | some fn =>
                  simp only [hRF] at hok
                  injection hok with h2
                  subst h2
                  refine ⟨rfl, ?_⟩
                  unfold dedupTarget
                  split
                  · cases hfind : findProjectMatch
                        (store (resolveMode body)).getCred
                        (jget credential "project_id" (Json.str ""))
                        (store (resolveMode body)).files with
                    | none =>
                      exact Or.inl (resolveFilename_endsWith body credential ts fn hRF)
                    | some ef =>
                      exact Or.inr ⟨resolveMode body,
                        findProjectMatch_mem _ _ _ ef hfind⟩
                  · exact Or.inl (resolveFilename_endsWith body credential ts fn hRF)
            | null => simp [hE] at hok
            | bool b => simp [hE] at hok
            | num n => simp [hE] at hok
            | str s => simp [hE] at hok
            | arr xs => simp [hE] at hok
      | null => simp [update_token, hcfg] at hok
      | bool b => simp [update_token, hcfg] at hok
      | num n => simp [update_token, hcfg] at hok
      | str s => simp [update_token, hcfg] at hok
      | arr xs => simp [update_token, hcfg] at hok

/-! ## Claim C7 -/

/-- C7: every successful intake response returns `id` equal to `filename`
and a filename ending in `.json` — whether supplied, derived, or selected by
the dedup match from a store whose listed filenames carry the suffix (the
spec's data-model invariant for stored filenames, section 3). -/
theorem c7_filename_suffix (cfg auth : String) (rawBody : Option Json)
    (ts : Nat) (store : String → Store) (r : UpdateOk)
    (hfiles : ∀ m f, f ∈ (store m).files → pyEndsWith f ".json" = true)
    (hok : update_token cfg auth rawBody ts store = Outcome.ok r) :
    pyEndsWith r.filename ".json" = true ∧ r.id = r.filename := by
  obtain ⟨hid, hsuf⟩ := update_token_ok_filename cfg auth rawBody ts store r hok
  refine ⟨?_, hid⟩
  rcases hsuf with h | ⟨m, hm⟩
  · exact h
  · exact hfiles m r.filename hm

/-- The flattened body used by C7's witness. -/
def wBodyF : List (String × Json) :=
  [("client_id", Json.str "c"), ("refresh_token", Json.str "r")]

/-- C7 witness: a derived filename from a push with no `filename`, no `name`
and no `project_id` ends in `.json`, and `id` equals `filename`. -/
theorem c7_witness :
    pyEndsWith (⟨"plugin-7.json", "plugin-7.json", "created", "geminicli", wBodyF⟩ :
      UpdateOk).filename ".json" = true
    ∧ (⟨"plugin-7.json", "plugin-7.json", "created", "geminicli", wBodyF⟩ :
      UpdateOk).id
      = (⟨"plugin-7.json", "plugin-7.json", "created", "geminicli", wBodyF⟩ :
        UpdateOk).filename :=
  c7_filename_suffix "s" "Bearer s" (some (Json.obj wBodyF)) 7 constStore
    ⟨"plugin-7.json", "plugin-7.json", "created", "geminicli", wBodyF⟩
    (fun _ f hf => absurd hf (List.not_mem_nil f)) rfl

/-! ## Claim C2 -/

/-- C2: an authenticated, well-formed push whose candidate has a non-empty
`project_id` equal to that of the first matching stored record is reported
as `updated` with that record's filename, scanning stops at the first
match, and the store content at that filename becomes the pushed payload. -/
theorem c2_dedup_update (cfg auth : String) (body credential : List (String × Json))
    (ts : Nat) (store : String → Store) (p : String) (pre post : List String)
    (ef : String) (r : List (String × Json))
    (hcfg : cfg ≠ "") (hauth : presentedToken auth body = Json.str cfg)
    (hcred : extractCred body = Json.obj credential)
    (hci : truthy (jget credential "client_id" Json.null) = true)
    (hrf : truthy (jget credential "refresh_token" Json.null) = true)
    (hfnShape : strOrFalsy (jget body "filename" (Json.str "")) = true)
    (hpid : jget credential "project_id" (Json.str "") = Json.str p)
    (hp : p ≠ "")
    (hsplit : (store (resolveMode body)).files = pre ++ ef :: post)
    (hpre : ∀ g ∈ pre, ∀ rec,
      (store (resolveMode body)).getCred g = Except.ok (some rec) →
      jget rec "project_id" Json.null ≠ Json.str p)
    (hef : (store (resolveMode body)).getCred ef = Except.ok (some r))
    (hr : jget r "project_id" Json.null = Json.str p) :
    update_token cfg auth (some (Json.obj body)) ts store
      = Outcome.ok ⟨ef, ef, "updated", resolveMode body, credential⟩
    ∧ (applyWrite (store (resolveMode body)) ef credential).getCred ef
      = Except.ok (some credential) := by
  have hne := ne_nil_of_truthy_get credential "client_id" hci
  have hfind : findProjectMatch (store (resolveMode body)).getCred (Json.str p)
      (store (resolveMode body)).files = some ef := by
    rw [hsplit]
    exact findProjectMatch_first (store (resolveMode body)).getCred p pre post ef r
      hpre hef hr
  obtain ⟨fn, hfn⟩ := resolveFilename_some body credential ts hfnShape
  have hdt : dedupTarget (store (resolveMode body)) credential fn = (ef, true) :=
    dedupTarget_match (store (resolveMode body)) credential fn p ef hpid hp hfind
  constructor
  · rw [update_token_auth_ok cfg auth body credential ts store hcfg hauth hcred hne]
    unfold updateWithCred
    rw [if_neg (by simp [hrf, hci])]
    rw [hfn]
    simp [hdt]
  · simp [applyWrite]

/-- The nested candidate credential used by C2's witness. -/
def wCred : List (String × Json) :=
  [("client_id", Json.str "c"), ("refresh_token", Json.str "r"),
   ("project_id", Json.str "p")]

/-- The push body used by C2's witness. -/
def wBodyD : List (String × Json) := [("credential", Json.obj wCred)]

/-- A store holding one record with the same project id, for C2's witness. -/
def wStoreD : Store :=
  { files := ["old.json"]
  , getCred := fun f =>
      if f = "old.json" then Except.ok (some [("project_id", Json.str "p")])
      else Except.ok none
  , getState := fun _ => Except.ok none }

/-- The store family used by C2's witness. -/
def wStoreFamD : String → Store := fun _ => wStoreD

/-- C2 witness: pushing a credential with project id `p` onto a store that
already holds `old.json` with project id `p` updates `old.json` in place. -/
theorem c2_witness :
    update_token "s" "Bearer s" (some (Json.obj wBodyD)) 5 wStoreFamD
      = Outcome.ok ⟨"old.json", "old.json", "updated", "geminicli", wCred⟩
    ∧ (applyWrite (wStoreFamD "geminicli") "old.json" wCred).getCred "old.json"
      = Except.ok (some wCred) := by
  have h := c2_dedup_update "s" "Bearer s" wBodyD wCred 5 wStoreFamD "p" [] []
    "old.json" [("project_id", Json.str "p")] (by decide) rfl rfl rfl rfl rfl rfl
    (by decide) rfl (fun g hg => absurd hg (List.not_mem_nil g)) rfl rfl
  exact ⟨h.1, h.2⟩

/-! ## Claim C6 -/

/-- C6: an authenticated push whose extracted candidate lacks a truthy
`client_id` or a truthy `refresh_token` fails with a 400 error and performs
no store write. -/
theorem c6_missing_identity (cfg auth : String) (body credential : List (String × Json))
    (ts : Nat) (store : String → Store)
    (hcfg : cfg ≠ "") (hauth : presentedToken auth body = Json.str cfg)
    (hcred : extractCred body = Json.obj credential)
    (hmiss : truthy (jget credential "client_id" Json.null) = false
           ∨ truthy (jget credential "refresh_token" Json.null) = false) :
    errStatus (update_token cfg auth (some (Json.obj body)) ts store) = some 400
    ∧ updateWrites (update_token cfg auth (some (Json.obj body)) ts store) = [] := by
  rw [update_token_auth_pass cfg auth body ts store hcfg hauth]
  by_cases hne : credential = []
  · subst hne
    constructor <;> simp [hcred, truthy, errStatus, updateWrites]
  · have ht := truthy_obj_of_ne_nil credential hne
    have hcond : (!truthy (jget credential "refresh_token" Json.null)
        || !truthy (jget credential "client_id" Json.null)) = true := by
      rcases hmiss with h | h <;> simp [h]
    constructor <;>
      simp [hcred, ht, updateWithCred, hcond, errStatus, updateWrites]

/-- The push body used by C6's witness: nested credential missing
`refresh_token`. -/
def wBodyE : List (String × Json) :=
  [("credential", Json.obj [("client_id", Json.str "c")])]

/-- C6 witness: a push whose candidate has only `client_id` fails with 400
and writes nothing. -/
theorem c6_witness :
    errStatus (update_token "s" "Bearer s" (some (Json.obj wBodyE)) 0 constStore)
      = some 400
    ∧ updateWrites (update_token "s" "Bearer s" (some (Json.obj wBodyE)) 0 constStore)
      = [] :=
  c6_missing_identity "s" "Bearer s" wBodyE [("client_id", Json.str "c")] 0 constStore
    (by decide) rfl rfl (Or.inr rfl)

/-! ## Claim C10 -/

/-- C10: a falsy `credential` body field (such as an empty object) makes the
flattened extraction the candidate, and when that extraction is empty the
push fails with the 400 missing-credential error. -/
theorem c10_falsy_credential (cfg auth : String) (body : List (String × Json))
    (ts : Nat) (store : String → Store)
    (hcfg : cfg ≠ "") (hauth : presentedToken auth body = Json.str cfg)
    (hfalsy : truthy (jget body "credential" Json.null) = false) :
    extractCred body = Json.obj (flattenExtract body)
    ∧ (flattenExtract body = [] →
        update_token cfg auth (some (Json.obj body)) ts store
          = Outcome.err 400 "缺少凭证数据") := by
  have hE : extractCred body = Json.obj (flattenExtract body) := by
    unfold extractCred
    rw [if_neg (by simp [hfalsy])]
  refine ⟨hE, fun hempty => ?_⟩
  rw [update_token_auth_pass cfg auth body ts store hcfg hauth]
  rw [hE, hempty]
  simp [truthy]

/-- C10 witness: a body whose `credential` field is the empty object behaves
as the (empty) flattened extraction and fails with the 400 missing-credential
error. -/
theorem c10_witness :
    extractCred [("credential", Json.obj [])]
      = Json.obj (flattenExtract [("credential", Json.obj [])])
    ∧ update_token "s" "Bearer s" (some (Json.obj [("credential", Json.obj [])]))
        0 constStore
      = Outcome.err 400 "缺少凭证数据" := by
  have h := c10_falsy_credential "s" "Bearer s" [("credential", Json.obj [])] 0
    constStore (by decide) rfl rfl
  exact ⟨h.1, h.2 rfl⟩

end Plugin
